import Mathlib

/-!
Verification of the oilpriceapi-node request execution engine.

Shallow embedding of `src/client.ts` (retry loop, error taxonomy,
response normalizer) and `src/errors.ts`.  Transport effects are
modelled by an oracle `Nat → AttemptOutcome` giving the outcome of each
attempt; the engine is a pure function from configuration and oracle to
a trace recording the number of fetch calls, the sleeps performed (in
milliseconds) and the final result.
-/

/-- JSON values; numbers are modelled as rationals. -/
inductive Json : Type
  | null : Json
  | bool : Bool → Json
  | num : ℚ → Json
  | str : String → Json
  | arr : List Json → Json
  | obj : List (String × Json) → Json
deriving Repr

/-- Property access `j.k`: `some v` when `j` is an object with field `k`,
`none` (JavaScript `undefined`) otherwise. -/
def getField : Json → String → Option Json
  | Json.obj fs, k => fs.lookup k
  | _, _ => none

/-- JavaScript truthiness of a JSON value (`NaN` is not representable here;
numbers are exact). -/
def jsTruthy : Json → Bool
  | Json.null => false
  | Json.bool b => b
  | Json.num n => decide (n ≠ 0)
  | Json.str s => decide (s ≠ "")
  | Json.arr _ => true
  | Json.obj _ => true

/-- Truthiness of a possibly-`undefined` value. -/
def jsTruthyOpt : Option Json → Bool
  | some v => jsTruthy v
  | none => false

/-- Arrays and objects are always truthy. -/
theorem jsTruthy_arr (xs : List Json) : jsTruthy (Json.arr xs) = true := rfl

theorem jsTruthy_obj (fs : List (String × Json)) : jsTruthy (Json.obj fs) = true := rfl

/-- Render a JSON value used as an error message (only the string case is
ever exercised by the API; the rest is JavaScript string coercion). -/
def jsonMsg : Json → String
  | Json.str s => s
  | Json.null => "null"
  | Json.bool b => if b then "true" else "false"
  | Json.num _ => "[number]"
  | Json.arr _ => "[array]"
  | Json.obj _ => "[object Object]"

/-- Model of `parseInt(s, 10)`: skip leading whitespace, optional sign, then read
leading decimal digits; `none` models `NaN`. -/
def jsParseInt (s : String) : Option Int :=
  let cs := s.data.dropWhile (fun c => c = ' ' ∨ c = '\t' ∨ c = '\n' ∨ c = '\r')
  let signAndRest : Bool × List Char :=
    match cs with
    | '-' :: r => (true, r)
    | '+' :: r => (false, r)
    | r => (false, r)
  let ds := signAndRest.2.takeWhile Char.isDigit
  if ds.isEmpty then none
  else
    let n : Nat := ds.foldl (fun acc c => acc * 10 + (c.toNat - '0'.toNat)) 0
    some (if signAndRest.1 then -(n : Int) else (n : Int))

/-- Retry strategies (`src/types.ts`). -/
inductive RetryStrategy : Type
  | exponential : RetryStrategy
  | linear : RetryStrategy
  | fixed : RetryStrategy
deriving Repr, DecidableEq

/-- The options object accepted by the `OilPriceAPI` constructor; `none`
models an absent (`undefined`) field. -/
structure OilPriceAPIConfig : Type where
  apiKey : Option String := none
  baseUrl : Option String := none
  retries : Option Nat := none
  retryDelay : Option Nat := none
  retryStrategy : Option RetryStrategy := none
  timeout : Option Nat := none
  debug : Option Bool := none

/-- The client's private configuration fields after construction. -/
structure Config : Type where
  apiKey : String
  baseUrl : String
  retries : Nat
  retryDelay : Nat
  retryStrategy : RetryStrategy
  timeout : Nat
  debug : Bool

/-- The error taxonomy of `src/errors.ts` as a sum type:
base `OilPriceAPIError` (generic) plus the five specializations.
Each variant carries its constructor arguments; `statusCode`/`code` are
derived accessors mirroring what each subclass passes to `super`. -/
inductive OilError : Type
  | generic : String → Option Nat → Option String → OilError
  | authentication : String → OilError
  | rateLimit : String → Option Int → OilError
  | notFound : String → OilError
  | server : String → Nat → OilError
  | timeout : String → OilError
deriving Repr, DecidableEq

/-- Accessor `error.message`. For `TimeoutError` the stored message already embeds
the configured timeout (the subclass constructor appends ` (<t>ms)`). -/
def OilError.message : OilError → String
  | OilError.generic m _ _ => m
  | OilError.authentication m => m
  | OilError.rateLimit m _ => m
  | OilError.notFound m => m
  | OilError.server m _ => m
  | OilError.timeout m => m

/-- Accessor `error.statusCode` as set by each subclass constructor. -/
def OilError.statusCode : OilError → Option Nat
  | OilError.generic _ sc _ => sc
  | OilError.authentication _ => some 401
  | OilError.rateLimit _ _ => some 429
  | OilError.notFound _ => some 404
  | OilError.server _ s => some s
  | OilError.timeout _ => none

/-- Accessor `error.code` as set by each subclass constructor. -/
def OilError.code : OilError → Option String
  | OilError.generic _ _ c => c
  | OilError.authentication _ => some "AUTHENTICATION_ERROR"
  | OilError.rateLimit _ _ => some "RATE_LIMIT_ERROR"
  | OilError.notFound _ => some "NOT_FOUND_ERROR"
  | OilError.server _ _ => some "SERVER_ERROR"
  | OilError.timeout _ => some "TIMEOUT_ERROR"

/-- Accessor `RateLimitError.retryAfter` (seconds); `none` for every other kind. -/
def OilError.retryAfter : OilError → Option Int
  | OilError.rateLimit _ r => r
  | _ => none

/-- A value thrown inside the engine: either an `OilPriceAPIError`
(`api`), or a raw JavaScript error `raw isTypeError message` (a fetch
network failure is a `TypeError` whose message mentions `fetch`; a JSON
parse failure is a `SyntaxError`, i.e. `raw false`). -/
inductive ThrownError : Type
  | api : OilError → ThrownError
  | raw : Bool → String → ThrownError
deriving Repr, DecidableEq

/-- Test whether `pat` is a prefix of `s` (on character lists). -/
def charListHasPre : List Char → List Char → Bool
  | [], _ => true
  | _ :: _, [] => false
  | p :: ps, c :: cs => p = c && charListHasPre ps cs

/-- Test whether `pat` occurs somewhere in `s` (on character lists). -/
def containsPat (pat : List Char) : List Char → Bool
  | [] => pat.isEmpty
  | c :: cs => charListHasPre pat (c :: cs) || containsPat pat cs

/-- Executable substring test used to model `message.includes('fetch')`. -/
def strContainsSub (s pat : String) : Bool :=
  containsPat pat.data s.data

/-- Predicate `isRetryable` (client.ts lines 104–127): network `TypeError`s whose
message mentions `fetch`, `TimeoutError`, `ServerError` and
`RateLimitError` are retryable; everything else is not. -/
def isRetryable : ThrownError → Bool
  | ThrownError.raw isTE m => isTE && strContainsSub m "fetch"
  | ThrownError.api (OilError.timeout _) => true
  | ThrownError.api (OilError.server _ _) => true
  | ThrownError.api (OilError.rateLimit _ _) => true
  | ThrownError.api _ => false

/-- Backoff policy `calculateRetryDelay` (client.ts lines 82–92). -/
def calculateRetryDelay (cfg : Config) (attempt : Nat) : Nat :=
  match cfg.retryStrategy with
  | RetryStrategy.exponential => cfg.retryDelay * 2 ^ attempt
  | RetryStrategy.linear => cfg.retryDelay * (attempt + 1)
  | RetryStrategy.fixed => cfg.retryDelay

/-- The constructor (client.ts lines 55–67), with JavaScript defaulting:
`retries` uses an `!== undefined` check (so `0` is honored) while
`retryDelay`/`timeout`/`baseUrl` use `||` (so falsy values including `0`
and `""` fall back to the defaults). An empty or missing `apiKey` throws
the base `OilPriceAPIError` before anything else happens; the model makes
no transport call (the constructor performs no network activity). -/
def mkClient (c : OilPriceAPIConfig) : Except OilError Config :=
  match c.apiKey with
  | none => Except.error (OilError.generic "API key is required" none none)
  | some k =>
    if k = "" then Except.error (OilError.generic "API key is required" none none)
    else Except.ok
      { apiKey := k
        baseUrl :=
          match c.baseUrl with
          | some b => if b = "" then "https://api.oilpriceapi.com" else b
          | none => "https://api.oilpriceapi.com"
        retries := c.retries.getD 3
        retryDelay :=
          match c.retryDelay with
          | some d => if d = 0 then 1000 else d
          | none => 1000
        retryStrategy := c.retryStrategy.getD RetryStrategy.exponential
        timeout :=
          match c.timeout with
          | some t => if t = 0 then 90000 else t
          | none => 90000
        debug := c.debug.getD false }

/-- Check `responseData.status === 'success'` (strict equality against a string
literal: true exactly when the field is that string). -/
def statusIsSuccess (responseData : Json) : Bool :=
  match getField responseData "status" with
  | some (Json.str s) => decide (s = "success")
  | _ => false

/-- Success-payload normalization (client.ts lines 236–252): on a
`success` envelope with truthy `data`, return `data.prices` when truthy,
else wrap `data` in a one-element array when `data.price` is present;
otherwise fall through and return `data` as-is (`none` = `undefined`). -/
def normalizeResponse (responseData : Json) : Option Json :=
  let dataField := getField responseData "data"
  if statusIsSuccess responseData ∧ jsTruthyOpt dataField then
    match dataField with
    | some d =>
      if jsTruthyOpt (getField d "prices") then getField d "prices"
      else if (getField d "price").isSome then some (Json.arr [d])
      else dataField
    | none => dataField
  else dataField

/-- The transport-level outcome of one attempt's `fetch`:
the abort timer fired (`timeout`), the fetch promise rejected with a
network `TypeError` (`netError`), or an HTTP response arrived carrying a
status, a status text, an optional `Retry-After` header and a body
(`none` when the body text is not parseable JSON). -/
inductive AttemptOutcome : Type
  | timeout : AttemptOutcome
  | netError : String → AttemptOutcome
  | response : Nat → String → Option String → Option Json → AttemptOutcome
deriving Repr

/-- Error-message extraction for a non-ok response (client.ts lines
179–188): default `HTTP <status>: <statusText>`, overridden by a truthy
`message` or `error` field of the JSON-parsed body. -/
def extractErrorMessage (status : Nat) (statusText : String) (body : Option Json) : String :=
  let dflt := "HTTP " ++ toString status ++ ": " ++ statusText
  match body with
  | none => dflt
  | some j =>
    match getField j "message" with
    | some v =>
      if jsTruthy v then jsonMsg v
      else
        match getField j "error" with
        | some w => if jsTruthy w then jsonMsg w else dflt
        | none => dflt
    | none =>
      match getField j "error" with
      | some w => if jsTruthy w then jsonMsg w else dflt
      | none => dflt

/-- Value of `RateLimitError.retryAfter` as constructed at client.ts lines
199–203: `retryAfter ? parseInt(retryAfter, 10) : undefined` (an absent
or empty header gives `undefined`; an unparseable one gives `NaN`, which
the model collapses with `undefined` to `none` — both are falsy and
carry no usable integer). -/
def parseRetryAfter (hdr : Option String) : Option Int :=
  match hdr with
  | none => none
  | some s => if s = "" then none else jsParseInt s

/-- Truthiness of the `retryAfter` field (`undefined`, `NaN` and `0` are
falsy). -/
def retryAfterTruthy : Option Int → Bool
  | some n => decide (n ≠ 0)
  | none => false

/-- Result of the inner `try` of one attempt: a normalized success
value, a thrown error reaching the outer `catch`, or the 429
`Retry-After` sleep-then-continue path (client.ts lines 205–210), which
bypasses the outer `catch`. -/
inductive InnerResult : Type
  | success : Option Json → InnerResult
  | thrown : ThrownError → InnerResult
  | cooldown : Int → InnerResult
deriving Repr

/-- One attempt's inner `try` block (client.ts lines 162–260): abort
becomes `TimeoutError` (message embeds the configured timeout, per the
`TimeoutError` constructor in errors.ts); a non-ok status is classified
by the `switch`; an ok status parses and normalizes the body. -/
def runAttempt (cfg : Config) (attempt : Nat) (outcome : AttemptOutcome) : InnerResult :=
  match outcome with
  | AttemptOutcome.timeout =>
    InnerResult.thrown (ThrownError.api
      (OilError.timeout ("Request timeout (" ++ toString cfg.timeout ++ "ms)")))
  | AttemptOutcome.netError m => InnerResult.thrown (ThrownError.raw true m)
  | AttemptOutcome.response status statusText hdr body =>
    if 200 ≤ status ∧ status ≤ 299 then
      match body with
      | none => InnerResult.thrown (ThrownError.raw false "Unexpected end of JSON input")
      | some j => InnerResult.success (normalizeResponse j)
    else
      let errorMessage := extractErrorMessage status statusText body
      if status = 401 then
        InnerResult.thrown (ThrownError.api (OilError.authentication errorMessage))
      else if status = 404 then
        InnerResult.thrown (ThrownError.api (OilError.notFound errorMessage))
      else if status = 429 then
        let ra := parseRetryAfter hdr
        if attempt < cfg.retries ∧ retryAfterTruthy ra then
          InnerResult.cooldown (ra.getD 0)
        else
          InnerResult.thrown (ThrownError.api (OilError.rateLimit errorMessage ra))
      else if status = 500 ∨ status = 502 ∨ status = 503 ∨ status = 504 then
        InnerResult.thrown (ThrownError.api (OilError.server errorMessage status))
      else
        InnerResult.thrown (ThrownError.api
          (OilError.generic errorMessage (some status) (some "HTTP_ERROR")))

/-- Outcome of the outer `catch` (client.ts lines 262–296): either the
loop iteration is terminal (`done`), or the engine sleeps the computed
backoff and continues (`retry`). -/
inductive StepResult : Type
  | done : Except ThrownError (Option Json) → StepResult
  | retry : Nat → StepResult
deriving Repr

/-- The outer `catch` body: re-throw non-retryable `OilPriceAPIError`s
immediately; on the last attempt re-throw typed errors and wrap raw ones
as `NETWORK_ERROR`; otherwise sleep `calculateRetryDelay attempt` and
continue. -/
def catchStep (cfg : Config) (attempt : Nat) (e : ThrownError) : StepResult :=
  match e with
  | ThrownError.api err =>
    if ¬ isRetryable (ThrownError.api err) then StepResult.done (Except.error (ThrownError.api err))
    else if attempt = cfg.retries then StepResult.done (Except.error (ThrownError.api err))
    else StepResult.retry (calculateRetryDelay cfg attempt)
  | ThrownError.raw _ m =>
    if attempt = cfg.retries then
      StepResult.done (Except.error (ThrownError.api
        (OilError.generic
          ("Request failed after " ++ toString (cfg.retries + 1) ++ " attempts: " ++ m)
          none (some "NETWORK_ERROR"))))
    else StepResult.retry (calculateRetryDelay cfg attempt)

/-- Observable trace of one `request` call: how many `fetch` calls were
issued, the sleeps performed in order (milliseconds; a `Retry-After`
cooldown of `s` seconds is recorded as `s * 1000`), and the final
outcome. -/
structure Trace : Type where
  fetches : Nat
  sleeps : List Int
  result : Except ThrownError (Option Json)
deriving Repr

/-- The retry loop (client.ts lines 151–300), one constructor-step per
iteration. `fuel` is the number of loop iterations still allowed
(`attempt ≤ retries` is enforced by starting with `fuel = retries + 1`);
exhausting it reproduces line 300's fallback throw of
`lastError || new OilPriceAPIError('Unknown error occurred')`. -/
def requestLoop (cfg : Config) (transport : Nat → AttemptOutcome) :
    Nat → Nat → Option ThrownError → Nat → List Int → Trace
  | _, 0, lastError, fetches, sleeps =>
    { fetches := fetches, sleeps := sleeps
      result := Except.error
        (lastError.getD (ThrownError.api (OilError.generic "Unknown error occurred" none none))) }
  | attempt, fuel + 1, lastError, fetches, sleeps =>
    match runAttempt cfg attempt (transport attempt) with
    | InnerResult.success v =>
      { fetches := fetches + 1, sleeps := sleeps, result := Except.ok v }
    | InnerResult.cooldown secs =>
      requestLoop cfg transport (attempt + 1) fuel lastError (fetches + 1)
        (sleeps ++ [secs * 1000])
    | InnerResult.thrown e =>
      match catchStep cfg attempt e with
      | StepResult.done r =>
        { fetches := fetches + 1, sleeps := sleeps, result := r }
      | StepResult.retry d =>
        requestLoop cfg transport (attempt + 1) fuel (some e) (fetches + 1)
          (sleeps ++ [(d : Int)])

/-- Entry point `request` (client.ts lines 132–301): run the loop from attempt 0
with the full attempt budget. -/
def request (cfg : Config) (transport : Nat → AttemptOutcome) : Trace :=
  requestLoop cfg transport 0 (cfg.retries + 1) none 0 []

/-! Helper lemmas about the loop's fetch count. -/

theorem requestLoop_fetches_le (cfg : Config) (t : Nat → AttemptOutcome) :
    ∀ fuel a le f s, (requestLoop cfg t a fuel le f s).fetches ≤ f + fuel := by
  intro fuel
  induction fuel with
  | zero => intro a le f s; simp [requestLoop]
  | succ n ih =>
    intro a le f s
    cases h : runAttempt cfg a (t a) with
    | success v => simp [requestLoop, h]
    | cooldown secs =>
      have := ih (a + 1) le (f + 1) (s ++ [secs * 1000])
      simp only [requestLoop, h]
      omega
    | thrown e =>
      cases h2 : catchStep cfg a e with
      | done r => simp [requestLoop, h, h2]
      | retry d =>
        have := ih (a + 1) (some e) (f + 1) (s ++ [(d : Int)])
        simp only [requestLoop, h, h2]
        omega

theorem requestLoop_fetches_ge (cfg : Config) (t : Nat → AttemptOutcome) :
    ∀ fuel a le f s, f ≤ (requestLoop cfg t a fuel le f s).fetches := by
  intro fuel
  induction fuel with
  | zero => intro a le f s; simp [requestLoop]
  | succ n ih =>
    intro a le f s
    cases h : runAttempt cfg a (t a) with
    | success v => simp [requestLoop, h]
    | cooldown secs =>
      have := ih (a + 1) le (f + 1) (s ++ [secs * 1000])
      simp only [requestLoop, h]
      omega
    | thrown e =>
      cases h2 : catchStep cfg a e with
      | done r => simp [requestLoop, h, h2]
      | retry d =>
        have := ih (a + 1) (some e) (f + 1) (s ++ [(d : Int)])
        simp only [requestLoop, h, h2]
        omega

theorem requestLoop_fetches_succ_ge (cfg : Config) (t : Nat → AttemptOutcome)
    (fuel a : Nat) (le : Option ThrownError) (f : Nat) (s : List Int) (hf : 1 ≤ fuel) :
    f + 1 ≤ (requestLoop cfg t a fuel le f s).fetches := by
  obtain ⟨n, rfl⟩ : ∃ n, fuel = n + 1 := ⟨fuel - 1, by omega⟩
  cases h : runAttempt cfg a (t a) with
  | success v => simp [requestLoop, h]
  | cooldown secs =>
    have := requestLoop_fetches_ge cfg t n (a + 1) le (f + 1) (s ++ [secs * 1000])
    simp only [requestLoop, h]
    omega
  | thrown e =>
    cases h2 : catchStep cfg a e with
    | done r => simp [requestLoop, h, h2]
    | retry d =>
      have := requestLoop_fetches_ge cfg t n (a + 1) (some e) (f + 1) (s ++ [(d : Int)])
      simp only [requestLoop, h, h2]
      omega

/-- Claim C5: for every attempt index `i`, base delay `d > 0` and
strategy, `calculateRetryDelay` returns `d * 2^i` (exponential),
`d * (i+1)` (linear), `d` (fixed); hence the first three retry waits are
`d, 2d, 4d` / `d, 2d, 3d` / `d, d, d`. -/
theorem c5_retry_delay_formula (cfg : Config) (i : Nat) (_hd : 0 < cfg.retryDelay) :
    calculateRetryDelay cfg i =
      (match cfg.retryStrategy with
       | RetryStrategy.exponential => cfg.retryDelay * 2 ^ i
       | RetryStrategy.linear => cfg.retryDelay * (i + 1)
       | RetryStrategy.fixed => cfg.retryDelay) ∧
    [calculateRetryDelay cfg 0, calculateRetryDelay cfg 1, calculateRetryDelay cfg 2] =
      (match cfg.retryStrategy with
       | RetryStrategy.exponential =>
         [cfg.retryDelay, 2 * cfg.retryDelay, 4 * cfg.retryDelay]
       | RetryStrategy.linear =>
         [cfg.retryDelay, 2 * cfg.retryDelay, 3 * cfg.retryDelay]
       | RetryStrategy.fixed =>
         [cfg.retryDelay, cfg.retryDelay, cfg.retryDelay]) := by
  cases hst : cfg.retryStrategy <;>
    refine ⟨by simp [calculateRetryDelay, hst], ?_⟩ <;>
    simp [calculateRetryDelay, hst] <;> ring_nf <;> simp

/-- Closed witness for C5 at a concrete configuration. -/
theorem c5_retry_delay_formula_witness :
    calculateRetryDelay
      { apiKey := "k", baseUrl := "u", retries := 3, retryDelay := 7,
        retryStrategy := RetryStrategy.linear, timeout := 9, debug := false } 2 = 21 :=
  (c5_retry_delay_formula _ 2 (by decide)).1

/-- Claim C2: on a success envelope with truthy `data`, the normalizer
returns the `prices` collection when present, wraps `data` in a
one-element array when a `price` field is present instead, and otherwise
returns `data` unchanged; in particular the two concrete example bodies
normalize as the spec states. -/
theorem c2_normalize :
    (∀ j d xs, statusIsSuccess j = true → getField j "data" = some d →
      jsTruthy d = true → getField d "prices" = some (Json.arr xs) →
      normalizeResponse j = some (Json.arr xs)) ∧
    (∀ j d q, statusIsSuccess j = true → getField j "data" = some d →
      jsTruthy d = true → getField d "prices" = none →
      getField d "price" = some (Json.num q) →
      normalizeResponse j = some (Json.arr [d])) ∧
    (∀ j d, statusIsSuccess j = true → getField j "data" = some d →
      jsTruthy d = true → getField d "prices" = none → getField d "price" = none →
      normalizeResponse j = some d) ∧
    normalizeResponse (Json.obj [("status", Json.str "success"),
        ("data", Json.obj [("price", Json.num (145/2)), ("code", Json.str "WTI_USD")])]) =
      some (Json.arr [Json.obj [("price", Json.num (145/2)), ("code", Json.str "WTI_USD")]]) ∧
    normalizeResponse (Json.obj [("status", Json.str "success"),
        ("data", Json.obj [("prices", Json.arr [Json.num 70, Json.num 71])])]) =
      some (Json.arr [Json.num 70, Json.num 71]) := by
  refine ⟨?_, ?_, ?_, ?_, ?_⟩
  · intro j d xs hs hd hdt hp
    simp [normalizeResponse, hs, hd, hdt, hp, jsTruthyOpt, jsTruthy_arr]
  · intro j d q hs hd hdt hp hq
    simp [normalizeResponse, hs, hd, hdt, hp, hq, jsTruthyOpt]
  · intro j d hs hd hdt hp hq
    simp [normalizeResponse, hs, hd, hdt, hp, hq, jsTruthyOpt]
  · rfl
  · rfl

/-- Closed witness for C2 on a concrete success body. -/
theorem c2_normalize_witness :
    normalizeResponse (Json.obj [("status", Json.str "success"),
        ("data", Json.obj [("prices", Json.arr [Json.num 70])])]) =
      some (Json.arr [Json.num 70]) :=
  c2_normalize.1 _ (Json.obj [("prices", Json.arr [Json.num 70])]) [Json.num 70]
    rfl rfl rfl rfl

/-- Claim C7: constructing the client with an empty or missing credential
fails immediately with the typed base error (the constructor takes no
transport — no network call is possible); any non-empty credential
succeeds. The resulting `Config` is an immutable value of the model,
matching the invariant that configuration never changes after
construction. -/
theorem c7_constructor (c : OilPriceAPIConfig) :
    (c.apiKey = none ∨ c.apiKey = some "" →
      mkClient c = Except.error (OilError.generic "API key is required" none none)) ∧
    (∀ k, c.apiKey = some k → k ≠ "" →
      ∃ cfg, mkClient c = Except.ok cfg ∧ cfg.apiKey = k) := by
  constructor
  · rintro (h | h) <;> simp [mkClient, h]
  · intro k hk hne
    simp only [mkClient, hk]
    rw [if_neg hne]
    exact ⟨_, rfl, rfl⟩

/-- Closed witness for C7: empty key rejected, non-empty key accepted. -/
theorem c7_constructor_witness :
    mkClient { apiKey := some "" } =
      Except.error (OilError.generic "API key is required" none none) ∧
    ∃ cfg, mkClient { apiKey := some "secret" } = Except.ok cfg ∧
      cfg.apiKey = "secret" :=
  ⟨(c7_constructor _).1 (Or.inr rfl),
   (c7_constructor _).2 "secret" rfl (by decide)⟩

/-- With `retries = 0` the loop makes exactly one fetch, whatever the
transport does. -/
theorem request_fetches_one (cfg : Config) (t : Nat → AttemptOutcome)
    (h : cfg.retries = 0) : (request cfg t).fetches = 1 := by
  unfold request
  rw [h]
  cases hr : runAttempt cfg 0 (t 0) with
  | success v => simp [requestLoop, hr]
  | cooldown secs => simp [requestLoop, hr]
  | thrown e =>
    cases h2 : catchStep cfg 0 e with
    | done r => simp [requestLoop, hr, h2]
    | retry d => simp [requestLoop, hr, h2]

/-- Claim C10: constructor defaulting is asymmetric. `retries: 0` is
honored (and the engine then makes exactly one fetch per call), while
`retryDelay: 0` and `timeout: 0` are silently replaced by the defaults
1000 ms and 90000 ms. -/
theorem c10_defaulting (c : OilPriceAPIConfig) (k : String)
    (hk : c.apiKey = some k) (hne : k ≠ "") (cfg : Config)
    (hcfg : mkClient c = Except.ok cfg) :
    (c.retries = some 0 → cfg.retries = 0 ∧ ∀ t, (request cfg t).fetches = 1) ∧
    (c.retryDelay = some 0 → cfg.retryDelay = 1000) ∧
    (c.timeout = some 0 → cfg.timeout = 90000) := by
  simp only [mkClient, hk] at hcfg
  rw [if_neg hne] at hcfg
  injection hcfg with h
  subst h
  refine ⟨?_, ?_, ?_⟩
  · intro hr
    refine ⟨by simp [hr], fun t => request_fetches_one _ t (by simp [hr])⟩
  · intro hr; simp [hr]
  · intro hr; simp [hr]

/-- Closed witness for C10 at a concrete options object. -/
theorem c10_defaulting_witness :
    ({ apiKey := "k", baseUrl := "https://api.oilpriceapi.com", retries := 0,
       retryDelay := 1000, retryStrategy := RetryStrategy.exponential,
       timeout := 90000, debug := false } : Config).retries = 0 ∧
    (request
      { apiKey := "k", baseUrl := "https://api.oilpriceapi.com", retries := 0,
        retryDelay := 1000, retryStrategy := RetryStrategy.exponential,
        timeout := 90000, debug := false }
      (fun _ => AttemptOutcome.timeout)).fetches = 1 :=
  ⟨((c10_defaulting
      { apiKey := some "k", retries := some 0, retryDelay := some 0, timeout := some 0 }
      "k" rfl (by decide) _ rfl).1 rfl).1,
   ((c10_defaulting
      { apiKey := some "k", retries := some 0, retryDelay := some 0, timeout := some 0 }
      "k" rfl (by decide) _ rfl).1 rfl).2 _⟩

/-- On the final allowed attempt, any thrown `OilPriceAPIError` is
terminal. -/
theorem catchStep_last_api (cfg : Config) (err : OilError) (a : Nat)
    (ha : a = cfg.retries) :
    catchStep cfg a (ThrownError.api err) =
      StepResult.done (Except.error (ThrownError.api err)) := by
  by_cases hi : isRetryable (ThrownError.api err) <;> simp [catchStep, hi, ha]

/-- Claim C4: a 401 response on the first attempt yields exactly one
fetch and an immediate `AuthenticationError`, regardless of the
configured retries. -/
theorem c4_auth_immediate (cfg : Config) (t : Nat → AttemptOutcome)
    (st : String) (hdr : Option String) (body : Option Json)
    (h : t 0 = AttemptOutcome.response 401 st hdr body) :
    (request cfg t).fetches = 1 ∧
    (request cfg t).result = Except.error (ThrownError.api
      (OilError.authentication (extractErrorMessage 401 st body))) := by
  have hr : runAttempt cfg 0 (t 0) = InnerResult.thrown (ThrownError.api
      (OilError.authentication (extractErrorMessage 401 st body))) := by
    rw [h]; norm_num [runAttempt]
  have hc : catchStep cfg 0 (ThrownError.api
      (OilError.authentication (extractErrorMessage 401 st body))) =
      StepResult.done (Except.error (ThrownError.api
        (OilError.authentication (extractErrorMessage 401 st body)))) := by
    simp [catchStep, isRetryable]
  unfold request
  constructor <;> simp [requestLoop, hr, hc]

/-- Closed witness for C4 with `retries = 3`. -/
theorem c4_auth_immediate_witness :
    (request
      { apiKey := "k", baseUrl := "u", retries := 3, retryDelay := 1000,
        retryStrategy := RetryStrategy.exponential, timeout := 5, debug := false }
      (fun _ => AttemptOutcome.response 401 "Unauthorized" none none)).fetches = 1 :=
  (c4_auth_immediate _ _ "Unauthorized" none none rfl).1

/-- Concrete configuration with `retries = 2` (C3). -/
def cfgRetries2 : Config :=
  { apiKey := "k", baseUrl := "https://api.oilpriceapi.com", retries := 2,
    retryDelay := 1000, retryStrategy := RetryStrategy.exponential,
    timeout := 90000, debug := false }

/-- Transport oracle answering 500, 500, then 200 with a success body
(C3). -/
def transport500x2then200 : Nat → AttemptOutcome := fun i =>
  if i = 0 then AttemptOutcome.response 500 "Internal Server Error" none none
  else if i = 1 then AttemptOutcome.response 500 "Internal Server Error" none none
  else AttemptOutcome.response 200 "OK" none
    (some (Json.obj [("status", Json.str "success"),
      ("data", Json.obj [("prices", Json.arr [Json.num 70])])]))

/-- With `retries = 0` and a thrown `OilPriceAPIError` on attempt 0, the
whole call is one fetch ending in that error. -/
theorem request_one_attempt_thrown_api (cfg : Config) (t : Nat → AttemptOutcome)
    (err : OilError) (h0 : cfg.retries = 0)
    (hr : runAttempt cfg 0 (t 0) = InnerResult.thrown (ThrownError.api err)) :
    request cfg t =
      { fetches := 1, sleeps := [], result := Except.error (ThrownError.api err) } := by
  unfold request
  rw [h0]
  simp [requestLoop, hr, catchStep_last_api cfg err 0 h0.symm]

/-- Claim C3: 500, 500, 200 with `retries = 2` gives exactly 3 fetches
and the 200 payload; `retries = 0` with any failing response gives
exactly 1 fetch and a terminal typed error; and in general the engine
never issues more than `retries + 1` fetches. -/
theorem c3_attempt_budget :
    (request cfgRetries2 transport500x2then200).fetches = 3 ∧
    (request cfgRetries2 transport500x2then200).result =
      Except.ok (some (Json.arr [Json.num 70])) ∧
    (∀ cfg t status st hdr body, cfg.retries = 0 →
      t 0 = AttemptOutcome.response status st hdr body →
      ¬(200 ≤ status ∧ status ≤ 299) →
      (request cfg t).fetches = 1 ∧
      ∃ err, (request cfg t).result = Except.error (ThrownError.api err)) ∧
    (∀ cfg t, (request cfg t).fetches ≤ cfg.retries + 1) := by
  refine ⟨rfl, rfl, ?_, ?_⟩
  · intro cfg t status st hdr body h0 ht hno
    have hrun : ∃ err, runAttempt cfg 0 (t 0) =
        InnerResult.thrown (ThrownError.api err) := by
      rw [ht]
      simp only [runAttempt, if_neg hno]
      split_ifs with h1 h2 h3 h4
      · exact ⟨_, rfl⟩
      · exact ⟨_, rfl⟩
      · exact absurd h4.1 (by omega)
      · exact ⟨_, rfl⟩
      · exact ⟨_, rfl⟩
      · exact ⟨_, rfl⟩
    obtain ⟨err, hr⟩ := hrun
    rw [request_one_attempt_thrown_api cfg t err h0 hr]
    exact ⟨rfl, err, rfl⟩
  · intro cfg t
    have := requestLoop_fetches_le cfg t (cfg.retries + 1) 0 none 0 []
    unfold request
    omega

/-- Closed witness for C3's quantified parts at concrete inputs. -/
theorem c3_attempt_budget_witness :
    (request
      { apiKey := "k", baseUrl := "u", retries := 0, retryDelay := 1000,
        retryStrategy := RetryStrategy.exponential, timeout := 5, debug := false }
      (fun _ => AttemptOutcome.response 503 "Service Unavailable" none none)).fetches = 1 :=
  (c3_attempt_budget.2.2.1 _ _ 503 "Service Unavailable" none none rfl rfl (by omega)).1

/-- One loop iteration that ends in a backoff retry. -/
theorem requestLoop_step_retry (cfg : Config) (t : Nat → AttemptOutcome)
    (a fuel : Nat) (le : Option ThrownError) (f : Nat) (s : List Int)
    (e : ThrownError) (d : Nat)
    (hr : runAttempt cfg a (t a) = InnerResult.thrown e)
    (hc : catchStep cfg a e = StepResult.retry d) :
    requestLoop cfg t a (fuel + 1) le f s =
      requestLoop cfg t (a + 1) fuel (some e) (f + 1) (s ++ [(d : Int)]) := by
  simp only [requestLoop, hr, hc]

/-- One loop iteration that takes the 429 `Retry-After` cooldown path. -/
theorem requestLoop_step_cooldown (cfg : Config) (t : Nat → AttemptOutcome)
    (a fuel : Nat) (le : Option ThrownError) (f : Nat) (s : List Int)
    (secs : Int)
    (hr : runAttempt cfg a (t a) = InnerResult.cooldown secs) :
    requestLoop cfg t a (fuel + 1) le f s =
      requestLoop cfg t (a + 1) fuel le (f + 1) (s ++ [secs * 1000]) := by
  simp only [requestLoop, hr]

/-- One loop iteration that is terminal. -/
theorem requestLoop_step_done (cfg : Config) (t : Nat → AttemptOutcome)
    (a fuel : Nat) (le : Option ThrownError) (f : Nat) (s : List Int)
    (e : ThrownError) (r : Except ThrownError (Option Json))
    (hr : runAttempt cfg a (t a) = InnerResult.thrown e)
    (hc : catchStep cfg a e = StepResult.done r) :
    requestLoop cfg t a (fuel + 1) le f s =
      { fetches := f + 1, sleeps := s, result := r } := by
  simp only [requestLoop, hr, hc]

/-- Any retryable thrown error at an attempt that still has budget
remaining causes the outer catch to schedule a backoff retry. -/
theorem catchStep_retryable_mid (cfg : Config) (e : ThrownError) (a : Nat)
    (hret : isRetryable e = true) (hlt : a < cfg.retries) :
    catchStep cfg a e = StepResult.retry (calculateRetryDelay cfg a) := by
  have hne : ¬ a = cfg.retries := by omega
  cases e with
  | api err => simp [catchStep, hret, hne]
  | raw b m => simp [catchStep, hne]

/-- If attempts `a .. a+k` all throw retryable errors and attempt `a+k`
still has budget remaining (with enough fuel, as every real run has),
the loop issues at least `k + 2` further fetches from state `f`. -/
theorem requestLoop_retryable_run (cfg : Config) (t : Nat → AttemptOutcome) :
    ∀ k a fuel le f s,
      (∀ i, i ≤ k → ∃ e, runAttempt cfg (a + i) (t (a + i)) = InnerResult.thrown e ∧
        isRetryable e = true) →
      a + k < cfg.retries → a + k + 1 ≤ a + fuel →
      f + k + 2 ≤ (requestLoop cfg t a (fuel + 1) le f s).fetches := by
  intro k
  induction k with
  | zero =>
    intro a fuel le f s hall hlt hfuel
    obtain ⟨e, hr, hret⟩ := hall 0 (Nat.le_refl 0)
    rw [Nat.add_zero] at hr
    rw [requestLoop_step_retry cfg t a fuel le f s e _ hr
      (catchStep_retryable_mid cfg e a hret (by omega))]
    have := requestLoop_fetches_succ_ge cfg t fuel (a + 1) (some e) (f + 1)
      (s ++ [(calculateRetryDelay cfg a : Int)]) (by omega)
    omega
  | succ n ih =>
    intro a fuel le f s hall hlt hfuel
    obtain ⟨e, hr, hret⟩ := hall 0 (Nat.zero_le _)
    rw [Nat.add_zero] at hr
    obtain ⟨m, rfl⟩ : ∃ m, fuel = m + 1 := ⟨fuel - 1, by omega⟩
    rw [requestLoop_step_retry cfg t a (m + 1) le f s e _ hr
      (catchStep_retryable_mid cfg e a hret (by omega))]
    have := ih (a + 1) m (some e) (f + 1)
      (s ++ [(calculateRetryDelay cfg a : Int)])
      (fun i hi => by
        have h := hall (i + 1) (by omega)
        rwa [show a + (i + 1) = a + 1 + i by omega] at h)
      (by omega) (by omega)
    omega

/-- Claim C1: `isRetryable` holds exactly for `TimeoutError`,
`ServerError`, `RateLimitError` and raw network `TypeError`s whose
message mentions `fetch`; a thrown `AuthenticationError`, `NotFoundError`
or HTTP-derived generic error ends the call at once with no further
attempt; and a retryable failure at any attempt with budget remaining
leads to another attempt: the loop proceeds to the next attempt index
after the backoff sleep, and a call whose attempts `0 .. a` all fail
retryably with `a < retries` issues at least `a + 2` fetches. -/
theorem c1_retryability :
    (∀ e, isRetryable e = true ↔
      ((∃ m, e = ThrownError.api (OilError.timeout m)) ∨
       (∃ m sc, e = ThrownError.api (OilError.server m sc)) ∨
       (∃ m r, e = ThrownError.api (OilError.rateLimit m r)) ∨
       (∃ m, e = ThrownError.raw true m ∧ strContainsSub m "fetch" = true))) ∧
    (∀ m, isRetryable (ThrownError.api (OilError.authentication m)) = false) ∧
    (∀ m, isRetryable (ThrownError.api (OilError.notFound m)) = false) ∧
    (∀ m sc c, isRetryable (ThrownError.api (OilError.generic m sc c)) = false) ∧
    (∀ cfg t a fuel le f s err,
      runAttempt cfg a (t a) = InnerResult.thrown (ThrownError.api err) →
      isRetryable (ThrownError.api err) = false →
      requestLoop cfg t a (fuel + 1) le f s =
        { fetches := f + 1, sleeps := s,
          result := Except.error (ThrownError.api err) }) ∧
    (∀ cfg t a fuel le f s e,
      runAttempt cfg a (t a) = InnerResult.thrown e →
      isRetryable e = true → a < cfg.retries →
      requestLoop cfg t a (fuel + 1) le f s =
        requestLoop cfg t (a + 1) fuel (some e) (f + 1)
          (s ++ [(calculateRetryDelay cfg a : Int)])) ∧
    (∀ cfg t a,
      (∀ i, i ≤ a → ∃ e, runAttempt cfg i (t i) = InnerResult.thrown e ∧
        isRetryable e = true) →
      a < cfg.retries → a + 2 ≤ (request cfg t).fetches) := by
  refine ⟨?_, fun m => rfl, fun m => rfl, fun m sc c => rfl, ?_, ?_, ?_⟩
  · intro e
    constructor
    · intro h
      match e with
      | ThrownError.api (OilError.timeout m) => exact Or.inl ⟨m, rfl⟩
      | ThrownError.api (OilError.server m sc) => exact Or.inr (Or.inl ⟨m, sc, rfl⟩)
      | ThrownError.api (OilError.rateLimit m r) => exact Or.inr (Or.inr (Or.inl ⟨m, r, rfl⟩))
      | ThrownError.raw isTE m =>
        simp only [isRetryable, Bool.and_eq_true] at h
        exact Or.inr (Or.inr (Or.inr ⟨m, by rw [h.1], h.2⟩))
      | ThrownError.api (OilError.generic m sc c) => exact absurd h (by simp [isRetryable])
      | ThrownError.api (OilError.authentication m) => exact absurd h (by simp [isRetryable])
      | ThrownError.api (OilError.notFound m) => exact absurd h (by simp [isRetryable])
    · rintro (⟨m, rfl⟩ | ⟨m, sc, rfl⟩ | ⟨m, r, rfl⟩ | ⟨m, rfl, hm⟩)
      · rfl
      · rfl
      · rfl
      · simp [isRetryable, hm]
  · intro cfg t a fuel le f s err hr hnr
    have hc : catchStep cfg a (ThrownError.api err) =
        StepResult.done (Except.error (ThrownError.api err)) := by
      simp [catchStep, hnr]
    simp [requestLoop, hr, hc]
  · intro cfg t a fuel le f s e hr hret hlt
    exact requestLoop_step_retry cfg t a fuel le f s e _ hr
      (catchStep_retryable_mid cfg e a hret hlt)
  · intro cfg t a hall hlt
    have := requestLoop_retryable_run cfg t a 0 cfg.retries none 0 []
      (by simpa using hall) (by omega) (by omega)
    unfold request
    omega

/-- Closed witness for C1: when attempts 0 and 1 both fail with a
network error and two retries are configured, at least three fetches
occur. -/
theorem c1_retryability_witness :
    1 + 2 ≤ (request
      { apiKey := "k", baseUrl := "u", retries := 2, retryDelay := 1000,
        retryStrategy := RetryStrategy.fixed, timeout := 5, debug := false }
      (fun _ => AttemptOutcome.netError "fetch failed")).fetches :=
  c1_retryability.2.2.2.2.2.2 _ _ 1
    (fun i _ => ⟨ThrownError.raw true "fetch failed", rfl, by decide⟩)
    (by decide)

/-- Claim C6: a 429 response with header `Retry-After: 60` and a retry
remaining makes the engine sleep 60 s (recorded as 60000 ms, not the
configured backoff) and continue, consuming one attempt; on the final
attempt the raised `RateLimitError` carries `retryAfter = 60`, the
parsed header value. -/
theorem c6_retry_after (cfg : Config) (t : Nat → AttemptOutcome) (a fuel : Nat)
    (le : Option ThrownError) (f : Nat) (s : List Int) (st : String)
    (body : Option Json)
    (h : t a = AttemptOutcome.response 429 st (some "60") body) :
    parseRetryAfter (some "60") = some 60 ∧
    (a < cfg.retries →
      runAttempt cfg a (t a) = InnerResult.cooldown 60 ∧
      requestLoop cfg t a (fuel + 1) le f s =
        requestLoop cfg t (a + 1) fuel le (f + 1) (s ++ [60 * 1000])) ∧
    (a = cfg.retries →
      runAttempt cfg a (t a) = InnerResult.thrown (ThrownError.api
        (OilError.rateLimit (extractErrorMessage 429 st body) (some 60))) ∧
      (requestLoop cfg t a (fuel + 1) le f s).result =
        Except.error (ThrownError.api
          (OilError.rateLimit (extractErrorMessage 429 st body) (some 60))) ∧
      OilError.retryAfter
        (OilError.rateLimit (extractErrorMessage 429 st body) (some 60)) =
        some 60) := by
  have hpr : parseRetryAfter (some "60") = some 60 := by decide
  refine ⟨hpr, ?_, ?_⟩
  · intro hlt
    have hr : runAttempt cfg a (t a) = InnerResult.cooldown 60 := by
      rw [h]
      norm_num [runAttempt, hpr, retryAfterTruthy, hlt]
    exact ⟨hr, requestLoop_step_cooldown cfg t a fuel le f s 60 hr⟩
  · intro ha
    have hr : runAttempt cfg a (t a) = InnerResult.thrown (ThrownError.api
        (OilError.rateLimit (extractErrorMessage 429 st body) (some 60))) := by
      rw [h]
      norm_num [runAttempt, hpr, ha]
    refine ⟨hr, ?_, rfl⟩
    rw [requestLoop_step_done cfg t a fuel le f s _ _ hr
      (catchStep_last_api cfg _ a ha)]

/-- Closed witness for C6: with one retry remaining the loop continues
after a 60 s cooldown sleep. -/
theorem c6_retry_after_witness :
    requestLoop
      { apiKey := "k", baseUrl := "u", retries := 1, retryDelay := 1000,
        retryStrategy := RetryStrategy.fixed, timeout := 5, debug := false }
      (fun _ => AttemptOutcome.response 429 "Too Many Requests" (some "60") none)
      0 1 none 0 [] =
    requestLoop
      { apiKey := "k", baseUrl := "u", retries := 1, retryDelay := 1000,
        retryStrategy := RetryStrategy.fixed, timeout := 5, debug := false }
      (fun _ => AttemptOutcome.response 429 "Too Many Requests" (some "60") none)
      1 0 none 1 [60 * 1000] :=
  ((c6_retry_after _ _ 0 0 none 0 [] "Too Many Requests" none rfl).2.1
    (by decide)).2

/-- Claim C9: a 429 whose `Retry-After` header is absent, `"0"`, or not
parseable skips the cooldown branch; the thrown `RateLimitError` is
still retryable, so with budget remaining the loop retries after the
standard backoff delay for the current attempt index. -/
theorem c9_rate_limit_backoff (cfg : Config) (t : Nat → AttemptOutcome)
    (a fuel : Nat) (le : Option ThrownError) (f : Nat) (s : List Int)
    (st : String) (hdr : Option String) (body : Option Json)
    (h : t a = AttemptOutcome.response 429 st hdr body)
    (hra : retryAfterTruthy (parseRetryAfter hdr) = false) :
    runAttempt cfg a (t a) = InnerResult.thrown (ThrownError.api
      (OilError.rateLimit (extractErrorMessage 429 st body) (parseRetryAfter hdr))) ∧
    isRetryable (ThrownError.api
      (OilError.rateLimit (extractErrorMessage 429 st body) (parseRetryAfter hdr))) =
      true ∧
    (a < cfg.retries →
      requestLoop cfg t a (fuel + 1) le f s =
        requestLoop cfg t (a + 1) fuel
          (some (ThrownError.api (OilError.rateLimit
            (extractErrorMessage 429 st body) (parseRetryAfter hdr))))
          (f + 1) (s ++ [(calculateRetryDelay cfg a : Int)])) ∧
    retryAfterTruthy (parseRetryAfter none) = false ∧
    retryAfterTruthy (parseRetryAfter (some "0")) = false ∧
    parseRetryAfter (some "0") = some 0 ∧
    retryAfterTruthy (parseRetryAfter (some "abc")) = false ∧
    parseRetryAfter (some "abc") = none := by
  have hr : runAttempt cfg a (t a) = InnerResult.thrown (ThrownError.api
      (OilError.rateLimit (extractErrorMessage 429 st body) (parseRetryAfter hdr))) := by
    rw [h]
    norm_num [runAttempt, hra]
  refine ⟨hr, rfl, ?_, by decide, by decide, by decide, by decide, by decide⟩
  intro hlt
  have hc : catchStep cfg a (ThrownError.api
      (OilError.rateLimit (extractErrorMessage 429 st body) (parseRetryAfter hdr))) =
      StepResult.retry (calculateRetryDelay cfg a) := by
    have hne : ¬ a = cfg.retries := by omega
    simp [catchStep, isRetryable, hne]
  exact requestLoop_step_retry cfg t a fuel le f s _ _ hr hc

/-- Closed witness for C9: header `"0"` with a retry remaining leads to
a standard backoff retry (1000 ms under the fixed strategy). -/
theorem c9_rate_limit_backoff_witness :
    requestLoop
      { apiKey := "k", baseUrl := "u", retries := 1, retryDelay := 1000,
        retryStrategy := RetryStrategy.fixed, timeout := 5, debug := false }
      (fun _ => AttemptOutcome.response 429 "Too Many Requests" (some "0") none)
      0 1 none 0 [] =
    requestLoop
      { apiKey := "k", baseUrl := "u", retries := 1, retryDelay := 1000,
        retryStrategy := RetryStrategy.fixed, timeout := 5, debug := false }
      (fun _ => AttemptOutcome.response 429 "Too Many Requests" (some "0") none)
      1 0
      (some (ThrownError.api (OilError.rateLimit "HTTP 429: Too Many Requests"
        (some 0))))
      1 [1000] :=
  (c9_rate_limit_backoff _ _ 0 0 none 0 [] "Too Many Requests" (some "0") none
    rfl (by decide)).2.2.1 (by decide)

/-- If every attempt times out, the loop ends in `TimeoutError` after
expending the whole remaining budget. -/
theorem requestLoop_all_timeout (cfg : Config) (t : Nat → AttemptOutcome)
    (ht : ∀ i, t i = AttemptOutcome.timeout) :
    ∀ fuel a le f s, a + fuel = cfg.retries →
      (requestLoop cfg t a (fuel + 1) le f s).result =
        Except.error (ThrownError.api (OilError.timeout
          ("Request timeout (" ++ toString cfg.timeout ++ "ms)"))) ∧
      (requestLoop cfg t a (fuel + 1) le f s).fetches = f + fuel + 1 := by
  intro fuel
  induction fuel with
  | zero =>
    intro a le f s hae
    have hr : runAttempt cfg a (t a) = InnerResult.thrown (ThrownError.api
        (OilError.timeout ("Request timeout (" ++ toString cfg.timeout ++ "ms)"))) := by
      rw [ht a]; rfl
    rw [requestLoop_step_done cfg t a 0 le f s _ _ hr
      (catchStep_last_api cfg _ a (by omega))]
    exact ⟨rfl, rfl⟩
  | succ n ih =>
    intro a le f s hae
    have hr : runAttempt cfg a (t a) = InnerResult.thrown (ThrownError.api
        (OilError.timeout ("Request timeout (" ++ toString cfg.timeout ++ "ms)"))) := by
      rw [ht a]; rfl
    have hc : catchStep cfg a (ThrownError.api
        (OilError.timeout ("Request timeout (" ++ toString cfg.timeout ++ "ms)"))) =
        StepResult.retry (calculateRetryDelay cfg a) := by
      have hne : ¬ a = cfg.retries := by omega
      simp [catchStep, isRetryable, hne]
    rw [requestLoop_step_retry cfg t a (n + 1) le f s _ _ hr hc]
    have := ih (a + 1)
      (some (ThrownError.api (OilError.timeout
        ("Request timeout (" ++ toString cfg.timeout ++ "ms)"))))
      (f + 1) (s ++ [(calculateRetryDelay cfg a : Int)]) (by omega)
    exact ⟨this.1, by have h2 := this.2; omega⟩

/-- Claim C8: if the timeout fires on every attempt, `request` exhausts
the budget (`retries + 1` fetches) and raises `TimeoutError`; its
message embeds the configured timeout value, its `statusCode` is absent
and its `code` is `TIMEOUT_ERROR`. -/
theorem c8_timeout (cfg : Config) (t : Nat → AttemptOutcome)
    (ht : ∀ i, t i = AttemptOutcome.timeout) :
    (request cfg t).result = Except.error (ThrownError.api (OilError.timeout
      ("Request timeout (" ++ toString cfg.timeout ++ "ms)"))) ∧
    (request cfg t).fetches = cfg.retries + 1 ∧
    (∃ pre post, "Request timeout (" ++ toString cfg.timeout ++ "ms)" =
      pre ++ toString cfg.timeout ++ post) ∧
    OilError.statusCode (OilError.timeout
      ("Request timeout (" ++ toString cfg.timeout ++ "ms)")) = none ∧
    OilError.code (OilError.timeout
      ("Request timeout (" ++ toString cfg.timeout ++ "ms)")) =
      some "TIMEOUT_ERROR" := by
  have h := requestLoop_all_timeout cfg t ht cfg.retries 0 none 0 [] (by omega)
  unfold request
  refine ⟨h.1, ?_, ⟨"Request timeout (", "ms)", rfl⟩, rfl, rfl⟩
  have h2 := h.2
  omega

/-- Closed witness for C8 at `timeout = 5`: the message contains `"5"`. -/
theorem c8_timeout_witness :
    (request
      { apiKey := "k", baseUrl := "u", retries := 0, retryDelay := 1000,
        retryStrategy := RetryStrategy.exponential, timeout := 5, debug := false }
      (fun _ => AttemptOutcome.timeout)).result =
      Except.error (ThrownError.api (OilError.timeout "Request timeout (5ms)")) :=
  (c8_timeout _ _ (fun _ => rfl)).1
